import Mathlib

/-!
Shallow embedding of `src/unifi_mcp/unifi_client.py` (UniFi MCP server's
controller session client) and proofs of the specification's claims about it.

Modelling conventions:
- JSON values are the inductive `Json`; Python `dict.get(k)` is `Json.get`,
  `dict.get(k, d)` is `Json.getD`.
- The HTTP transport (httpx) is an oracle `world : HttpRequest → Transport`
  giving, for the request a method sends, either a response (status + parsed
  JSON body) or a raised httpx transport exception (`httpx.ConnectError`, or
  any other `httpx.HTTPError`).
- `response.raise_for_status()` raises `httpx.HTTPStatusError` exactly when
  the status is not 2xx; this is inlined into each method's response match.
- Python exceptions are the `PyError` inductive; the Python subclass relation
  UniFiAuthenticationError < UniFiError, UniFiConnectionError < UniFiError is
  the predicate `PyError.isUniFiError` (what `except UniFiError` catches).
- Each network-calling method returns, besides its result, the list of
  `HttpRequest`s it sent, so that wire-level claims are statable.
- `self._client is not None` is the field `hasClient`; `self._logged_in` is
  `logged_in`; the effect of `aclose()` is the field `connClosed`.
-/

/-- JSON values, as returned by `response.json()`. Objects are association
lists of string keys (Python dicts with unique keys). -/
inductive Json where
  | null
  | bool (b : Bool)
  | num (n : Int)
  | str (s : String)
  | arr (elems : List Json)
  | obj (fields : List (String × Json))

/-- Lookup in an association list of JSON object fields (Python dict lookup). -/
def jLookup : List (String × Json) → String → Option Json
  | [], _ => none
  | (k, v) :: rest, key => if k = key then some v else jLookup rest key

/-- Python `d.get(k)`: `None` when the key is absent. Non-objects have no keys. -/
def Json.get (j : Json) (key : String) : Option Json :=
  match j with
  | Json.obj fields => jLookup fields key
  | _ => none

/-- Python `d.get(k, default)`. -/
def Json.getD (j : Json) (key : String) (d : Json) : Json :=
  (Json.get j key).getD d

/-- Python `str.lower()`. On the ASCII strings this client handles (MAC
addresses, env-var flag values) it is per-character ASCII lowercasing. -/
def pyLower (s : String) : String :=
  String.mk (s.data.map Char.toLower)

/-- Python `str.replace(pat, rep)` on character lists, for a nonempty
pattern: scan left to right, replacing each leftmost occurrence and
continuing after it. The fuel argument (the length of the scanned list) only
makes the recursion structural; each step consumes at least one character,
so it never runs out before the list is empty. -/
def pyReplaceAux (pat rep : List Char) : Nat → List Char → List Char
  | _, [] => []
  | 0, s => s
  | fuel + 1, ch :: rest =>
      if pat.isPrefixOf (ch :: rest) then
        rep ++ pyReplaceAux pat rep fuel (List.drop (pat.length - 1) rest)
      else
        ch :: pyReplaceAux pat rep fuel rest

/-- Python `str.replace(pat, rep)` for a nonempty pattern (this client only
replaces the nonempty pattern "\x7bsite\x7d"). -/
def pyReplace (s pat rep : String) : String :=
  String.mk (pyReplaceAux pat.data rep.data s.data.length s.data)

/-- Python `arg or fallback` for a `str | None` argument: `None` and the empty
string are falsy, so both fall through to the fallback. -/
def pyOrStr (arg : Option String) (fallback : String) : String :=
  match arg with
  | some s => if s = "" then fallback else s
  | none => fallback

/-- Lookup of `os.environ.get(key)` in a process environment. -/
def envGet : List (String × String) → String → Option String
  | [], _ => none
  | (k, v) :: rest, key => if k = key then some v else envGet rest key

/-- Python `os.environ.get(key, default)`. -/
def envGetD (env : List (String × String)) (key d : String) : String :=
  (envGet env key).getD d

/-- An HTTP request as handed to httpx: method, URL (relative to the
configured base host), optional JSON body. -/
structure HttpRequest where
  method : String
  url : String
  body : Option Json

/-- Outcome of one HTTP call through httpx: a response (any status, with
parsed JSON body), a raised `httpx.ConnectError`, or any other raised
`httpx.HTTPError` (timeout etc.). -/
inductive Transport where
  | response (status : Nat) (body : Json)
  | connectError
  | otherHttpError

/-- Raised httpx exception kinds when they propagate uncaught. Both are
subclasses of `httpx.HTTPError` and neither is a `UniFiError`. -/
inductive HttpxErr where
  | connectError
  | otherError
deriving DecidableEq

/-- Message payload of a raised `UniFiError`: either a value passed directly
(the envelope's `meta.msg` or the fallback string), or the formatted
f-string wrapping an `httpx.HTTPStatusError` for the given status. -/
inductive ErrMsg where
  | json (v : Json)
  | loginFailed (status : Nat)
  | requestFailed (status : Nat)

/-- Python exceptions this module can raise: the UniFi error hierarchy of
unifi_client.py, `RuntimeError`, and uncaught httpx exceptions. -/
inductive PyError where
  | uniFiError (msg : ErrMsg)
  | uniFiAuthenticationError (msg : String)
  | uniFiConnectionError (msg : String)
  | runtimeError (msg : String)
  | httpxRaised (e : HttpxErr)

/-- The Python subclass relation: what `except UniFiError` catches.
`UniFiAuthenticationError` and `UniFiConnectionError` subclass `UniFiError`;
`RuntimeError` and httpx exceptions do not. -/
def PyError.isUniFiError : PyError → Bool
  | PyError.uniFiError _ => true
  | PyError.uniFiAuthenticationError _ => true
  | PyError.uniFiConnectionError _ => true
  | PyError.runtimeError _ => false
  | PyError.httpxRaised _ => false

/-- Membership in the `UniFiAuthenticationError` leaf class. -/
def PyError.isAuthError : PyError → Bool
  | PyError.uniFiAuthenticationError _ => true
  | _ => false

/-- Membership in the `UniFiConnectionError` leaf class. -/
def PyError.isConnError : PyError → Bool
  | PyError.uniFiConnectionError _ => true
  | _ => false

/-- State of a `UniFiClient` instance. `hasClient` models
`self._client is not None`, `connClosed` models the underlying
`AsyncClient` having been closed by `aclose()`, `logged_in` models
`self._logged_in`. -/
structure UniFiClient where
  host : String
  username : String
  password : String
  site : String
  verify_ssl : Bool
  is_unifi_os : Bool
  hasClient : Bool
  connClosed : Bool
  logged_in : Bool
deriving DecidableEq

/-- Constructor `UniFiClient.__init__`: per-field resolution of explicit
argument, environment variable, and documented default. String fields use
Python `or` (so an explicit empty string is falsy and falls back); the two
boolean fields test `is not None`, and their env fallback is
`env value lowered == "true"`. -/
def UniFiClient.init (env : List (String × String))
    (host username password site : Option String)
    (verify_ssl is_unifi_os : Option Bool) : UniFiClient :=
  { host := pyOrStr host (envGetD env "UNIFI_HOST" "")
    username := pyOrStr username (envGetD env "UNIFI_USERNAME" "")
    password := pyOrStr password (envGetD env "UNIFI_PASSWORD" "")
    site := pyOrStr site (envGetD env "UNIFI_SITE" "default")
    verify_ssl :=
      match verify_ssl with
      | some b => b
      | none => pyLower (envGetD env "UNIFI_VERIFY_SSL" "true") == "true"
    is_unifi_os :=
      match is_unifi_os with
      | some b => b
      | none => pyLower (envGetD env "UNIFI_IS_UNIFI_OS" "false") == "true"
    hasClient := false
    connClosed := false
    logged_in := false }

/-- Property `_api_prefix`: `"/proxy/network"` for a UniFi OS controller,
empty for a legacy controller. -/
def apiRoot (c : UniFiClient) : String :=
  if c.is_unifi_os then "/proxy/network" else ""

/-- Method `_api_url`: replace the placeholder with the configured site, then
prepend the deployment-mode root. -/
def _api_url (c : UniFiClient) (endpoint : String) : String :=
  apiRoot c ++ pyReplace endpoint "{site}" c.site

/-- Inlining of `response.raise_for_status()`: no exception exactly when the
status code is 2xx. -/
def httpSuccess (status : Nat) : Bool :=
  decide (200 ≤ status) && decide (status < 300)

/-- Method `login`: raises `RuntimeError` when `_client` is `None`; posts
`{username, password}` to the mode-dependent endpoint; on non-2xx raises
`UniFiAuthenticationError` (401) or `UniFiError` (otherwise); converts
`httpx.ConnectError` to `UniFiConnectionError`; other httpx errors propagate.
On success sets `_logged_in` and returns the updated state. The POST that
`login` issues is split out as `loginReq`: the mode-selected `login_url` and
the credential-pair body, as in lines 105-111 of the source. -/
def loginReq (c : UniFiClient) : HttpRequest :=
  let login_url := if c.is_unifi_os then "/api/auth/login" else "/api/login"
  { method := "POST"
    url := login_url
    body := some (Json.obj
      [("username", Json.str c.username), ("password", Json.str c.password)]) }

/-- Method `login`, continued: send `loginReq`, then handle the outcome as
described above. -/
def login (c : UniFiClient) (world : HttpRequest → Transport) :
    Except PyError UniFiClient × List HttpRequest :=
  if c.hasClient = false then
    (Except.error (PyError.runtimeError "Client not initialized"), [])
  else
    let req := loginReq c
    match world req with
    | Transport.response status _ =>
        if httpSuccess status then
          (Except.ok { c with logged_in := true }, [req])
        else if status = 401 then
          (Except.error (PyError.uniFiAuthenticationError "Invalid credentials"), [req])
        else
          (Except.error (PyError.uniFiError (ErrMsg.loginFailed status)), [req])
    | Transport.connectError =>
        (Except.error (PyError.uniFiConnectionError ("Failed to connect to " ++ c.host)), [req])
    | Transport.otherHttpError =>
        (Except.error (PyError.httpxRaised HttpxErr.otherError), [req])

/-- Body of `logout`'s try block: the POST (which, without
`raise_for_status`, succeeds on any status code and raises only httpx
transport exceptions), then `self._logged_in = False`. An httpx exception
escapes as the error case — so the flag assignment after it does not run. -/
def logoutTry (c : UniFiClient) (t : Transport) : Except HttpxErr UniFiClient :=
  match t with
  | Transport.response _ _ => Except.ok { c with logged_in := false }
  | Transport.connectError => Except.error HttpxErr.connectError
  | Transport.otherHttpError => Except.error HttpxErr.otherError

/-- Method `logout`: returns immediately when `_client` is `None` or not
logged in; otherwise posts to `/api/logout` and swallows any
`httpx.HTTPError` (`except httpx.HTTPError: pass`), leaving the state as it
was before the try block. -/
def logout (c : UniFiClient) (world : HttpRequest → Transport) :
    UniFiClient × List HttpRequest :=
  if c.hasClient = false ∨ c.logged_in = false then
    (c, [])
  else
    let req : HttpRequest := { method := "POST", url := "/api/logout", body := none }
    match logoutTry c (world req) with
    | Except.ok c2 => (c2, [req])
    | Except.error _ => (c, [req])

/-- Method `__aexit__`: when a client exists, logout (best-effort) then
`aclose()` the underlying connection; otherwise do nothing. -/
def __aexit__ (c : UniFiClient) (world : HttpRequest → Transport) :
    UniFiClient × List HttpRequest :=
  if c.hasClient = false then
    (c, [])
  else
    let r := logout c world
    ({ r.1 with connClosed := true }, r.2)

/-- Method `__aenter__`: create the `AsyncClient`, then login. -/
def __aenter__ (c : UniFiClient) (world : HttpRequest → Transport) :
    Except PyError UniFiClient × List HttpRequest :=
  login { c with hasClient := true, connClosed := false } world

/-- Method `_request`: raises `RuntimeError` when `_client` is `None`; builds
the URL via `_api_url`; on 2xx parses the envelope — `meta.rc == "error"`
raises `UniFiError` with `meta.get("msg", "Unknown API error")`, otherwise
returns `data.get("data", [])`; a non-2xx status raises `UniFiError`
(`except httpx.HTTPStatusError`); any other httpx exception propagates
uncaught. The request `_request` sends is split out as `reqOf`: the given
method, the URL built by `_api_url`, and the given JSON body. -/
def reqOf (c : UniFiClient) (method endpoint : String) (json : Option Json) :
    HttpRequest :=
  { method := method, url := _api_url c endpoint, body := json }

/-- Method `_request`, continued: send `reqOf`, then handle the outcome as
described above. -/
def _request (c : UniFiClient) (world : HttpRequest → Transport)
    (method endpoint : String) (json : Option Json) :
    Except PyError Json × List HttpRequest :=
  if c.hasClient = false then
    (Except.error (PyError.runtimeError "Client not initialized"), [])
  else
    let req := reqOf c method endpoint json
    match world req with
    | Transport.response status rbody =>
        if httpSuccess status then
          let meta := Json.getD rbody "meta" (Json.obj [])
          match Json.get meta "rc" with
          | some (Json.str "error") =>
              (Except.error (PyError.uniFiError (ErrMsg.json
                (Json.getD meta "msg" (Json.str "Unknown API error")))), [req])
          | _ =>
              (Except.ok (Json.getD rbody "data" (Json.arr [])), [req])
        else
          (Except.error (PyError.uniFiError (ErrMsg.requestFailed status)), [req])
    | Transport.connectError =>
        (Except.error (PyError.httpxRaised HttpxErr.connectError), [req])
    | Transport.otherHttpError =>
        (Except.error (PyError.httpxRaised HttpxErr.otherError), [req])

/-- Method `get_devices`. -/
def get_devices (c : UniFiClient) (world : HttpRequest → Transport) :
    Except PyError Json × List HttpRequest :=
  _request c world "GET" "/api/s/{site}/stat/device" none

/-- Method `get_clients`. -/
def get_clients (c : UniFiClient) (world : HttpRequest → Transport) :
    Except PyError Json × List HttpRequest :=
  _request c world "GET" "/api/s/{site}/stat/sta" none

/-- Method `restart_device`: POST the restart command with the lower-cased
MAC, then return `True`. -/
def restart_device (c : UniFiClient) (world : HttpRequest → Transport)
    (mac : String) : Except PyError Bool × List HttpRequest :=
  let r := _request c world "POST" "/api/s/{site}/cmd/devmgr"
    (some (Json.obj [("cmd", Json.str "restart"), ("mac", Json.str (pyLower mac))]))
  (r.1.map (fun _ => true), r.2)

/-- Method `block_client`. -/
def block_client (c : UniFiClient) (world : HttpRequest → Transport)
    (mac : String) : Except PyError Bool × List HttpRequest :=
  let r := _request c world "POST" "/api/s/{site}/cmd/stamgr"
    (some (Json.obj [("cmd", Json.str "block-sta"), ("mac", Json.str (pyLower mac))]))
  (r.1.map (fun _ => true), r.2)

/-- Method `unblock_client`. -/
def unblock_client (c : UniFiClient) (world : HttpRequest → Transport)
    (mac : String) : Except PyError Bool × List HttpRequest :=
  let r := _request c world "POST" "/api/s/{site}/cmd/stamgr"
    (some (Json.obj [("cmd", Json.str "unblock-sta"), ("mac", Json.str (pyLower mac))]))
  (r.1.map (fun _ => true), r.2)

/-- Method `disconnect_client`. -/
def disconnect_client (c : UniFiClient) (world : HttpRequest → Transport)
    (mac : String) : Except PyError Bool × List HttpRequest :=
  let r := _request c world "POST" "/api/s/{site}/cmd/stamgr"
    (some (Json.obj [("cmd", Json.str "kick-sta"), ("mac", Json.str (pyLower mac))]))
  (r.1.map (fun _ => true), r.2)

/-! Concrete fixtures shared by witnesses and counterexamples. -/

/-- Sample authenticated legacy-mode client (scope entered, login done). -/
def cAuth : UniFiClient :=
  { host := "https://unifi.local", username := "admin", password := "pass"
    site := "default", verify_ssl := true, is_unifi_os := false
    hasClient := true, connClosed := false, logged_in := true }

/-- Sample authenticated UniFi OS client. -/
def cOs : UniFiClient :=
  { cAuth with is_unifi_os := true }

/-- Envelope with rc = ok and no data key. -/
def okEnvelope : Json :=
  Json.obj [("meta", Json.obj [("rc", Json.str "ok")])]

/-- Transport oracle answering every request with 200 and an ok envelope. -/
def okWorld : HttpRequest → Transport :=
  fun _ => Transport.response 200 okEnvelope

/-- Transport oracle raising httpx.ConnectError on every request. -/
def connFailWorld : HttpRequest → Transport :=
  fun _ => Transport.connectError

/-! Helper lemmas shared by several claims. -/

/-- Whenever the client is initialized, one call of the low-level request
method sends exactly one HTTP request, the one described by reqOf. -/
theorem request_trace (c : UniFiClient) (world : HttpRequest → Transport)
    (method endpoint : String) (json : Option Json) (hc : c.hasClient = true) :
    (_request c world method endpoint json).2 = [reqOf c method endpoint json] := by
  simp only [_request, hc]
  split
  · simp_all
  · split
    · split
      · split <;> rfl
      · rfl
    · rfl
    · rfl

/-- Whenever the client is initialized, login sends exactly loginReq. -/
theorem login_trace (c : UniFiClient) (world : HttpRequest → Transport)
    (hc : c.hasClient = true) :
    (login c world).2 = [loginReq c] := by
  simp only [login, hc]
  split
  · simp_all
  · split
    · split
      · rfl
      · split <;> rfl
    · rfl
    · rfl

/-! Claim theorems. -/

/-- C5: for every path template and site identifier, path building
substitutes the configured site for the placeholder and then prefixes
/proxy/network in OS-integrated mode and nothing in legacy mode; site
default with template /api/s/.../stat/device yields the two documented
URLs. -/
theorem c5_api_url_building (c : UniFiClient) (endpoint : String) :
    _api_url c endpoint =
      (if c.is_unifi_os then "/proxy/network" else "") ++
        pyReplace endpoint "{site}" c.site ∧
    (c.site = "default" → c.is_unifi_os = false →
      _api_url c "/api/s/{site}/stat/device" = "/api/s/default/stat/device") ∧
    (c.site = "default" → c.is_unifi_os = true →
      _api_url c "/api/s/{site}/stat/device" =
        "/proxy/network/api/s/default/stat/device") := by
  refine ⟨rfl, ?_, ?_⟩
  · intro hs hm
    simp only [_api_url, apiRoot, hm, hs]
    decide
  · intro hs hm
    simp only [_api_url, apiRoot, hm, hs]
    decide

/-- Witness for C5 at the two sample clients. -/
theorem c5_api_url_building_witness :
    _api_url cAuth "/api/s/{site}/stat/device" = "/api/s/default/stat/device" ∧
    _api_url cOs "/api/s/{site}/stat/device" =
      "/proxy/network/api/s/default/stat/device" :=
  ⟨(c5_api_url_building cAuth "/api/s/{site}/stat/device").2.1 rfl rfl,
   (c5_api_url_building cOs "/api/s/{site}/stat/device").2.2 rfl rfl⟩

/-- C6: every command operation (restart, block, unblock, disconnect) sends
the lower-cased MAC in the mac field of the request body, whatever the
casing of the argument; the documented example lowercases as stated. -/
theorem c6_mac_lowercased (c : UniFiClient) (world : HttpRequest → Transport)
    (mac : String) (hc : c.hasClient = true) :
    pyLower "AA:BB:CC:DD:EE:FF" = "aa:bb:cc:dd:ee:ff" ∧
    (∀ cmdName, Json.get
        (Json.obj [("cmd", Json.str cmdName), ("mac", Json.str (pyLower mac))])
        "mac" = some (Json.str (pyLower mac))) ∧
    (restart_device c world mac).2 =
      [reqOf c "POST" "/api/s/{site}/cmd/devmgr"
        (some (Json.obj [("cmd", Json.str "restart"), ("mac", Json.str (pyLower mac))]))] ∧
    (block_client c world mac).2 =
      [reqOf c "POST" "/api/s/{site}/cmd/stamgr"
        (some (Json.obj [("cmd", Json.str "block-sta"), ("mac", Json.str (pyLower mac))]))] ∧
    (unblock_client c world mac).2 =
      [reqOf c "POST" "/api/s/{site}/cmd/stamgr"
        (some (Json.obj [("cmd", Json.str "unblock-sta"), ("mac", Json.str (pyLower mac))]))] ∧
    (disconnect_client c world mac).2 =
      [reqOf c "POST" "/api/s/{site}/cmd/stamgr"
        (some (Json.obj [("cmd", Json.str "kick-sta"), ("mac", Json.str (pyLower mac))]))] := by
  refine ⟨rfl, fun cmdName => ?_, ?_, ?_, ?_, ?_⟩
  · simp [Json.get, jLookup]
  · simpa [restart_device] using
      request_trace c world "POST" "/api/s/{site}/cmd/devmgr"
        (some (Json.obj [("cmd", Json.str "restart"), ("mac", Json.str (pyLower mac))])) hc
  · simpa [block_client] using
      request_trace c world "POST" "/api/s/{site}/cmd/stamgr"
        (some (Json.obj [("cmd", Json.str "block-sta"), ("mac", Json.str (pyLower mac))])) hc
  · simpa [unblock_client] using
      request_trace c world "POST" "/api/s/{site}/cmd/stamgr"
        (some (Json.obj [("cmd", Json.str "unblock-sta"), ("mac", Json.str (pyLower mac))])) hc
  · simpa [disconnect_client] using
      request_trace c world "POST" "/api/s/{site}/cmd/stamgr"
        (some (Json.obj [("cmd", Json.str "kick-sta"), ("mac", Json.str (pyLower mac))])) hc

/-- Witness for C6 at the sample client and the documented example MAC. -/
theorem c6_mac_lowercased_witness :
    pyLower "AA:BB:CC:DD:EE:FF" = "aa:bb:cc:dd:ee:ff" ∧
    (restart_device cAuth okWorld "AA:BB:CC:DD:EE:FF").2 =
      [reqOf cAuth "POST" "/api/s/{site}/cmd/devmgr"
        (some (Json.obj [("cmd", Json.str "restart"),
                         ("mac", Json.str "aa:bb:cc:dd:ee:ff")]))] := by
  have h := c6_mac_lowercased cAuth okWorld "AA:BB:CC:DD:EE:FF" rfl
  have h2 := h.2.2.1
  rw [h.1] at h2
  exact ⟨h.1, h2⟩

/-- C7: login posts to /api/login in legacy mode and to /api/auth/login in
OS-integrated mode, with exactly the credential pair as body, and that is
the only request login sends. -/
theorem c7_login_endpoint_and_body (c : UniFiClient)
    (world : HttpRequest → Transport) (hc : c.hasClient = true) :
    (loginReq c).method = "POST" ∧
    (loginReq c).url = (if c.is_unifi_os then "/api/auth/login" else "/api/login") ∧
    (loginReq c).body = some (Json.obj
      [("username", Json.str c.username), ("password", Json.str c.password)]) ∧
    (login c world).2 = [loginReq c] :=
  ⟨rfl, rfl, rfl, login_trace c world hc⟩

/-- Witness for C7 at the two sample clients. -/
theorem c7_login_endpoint_and_body_witness :
    (loginReq cAuth).url = "/api/login" ∧
    (loginReq cOs).url = "/api/auth/login" ∧
    (loginReq cAuth).body = some (Json.obj
      [("username", Json.str "admin"), ("password", Json.str "pass")]) ∧
    (login cAuth okWorld).2 = [loginReq cAuth] := by
  have h1 := c7_login_endpoint_and_body cAuth okWorld rfl
  have h2 := c7_login_endpoint_and_body cOs okWorld rfl
  exact ⟨h1.2.1.trans rfl, h2.2.1.trans rfl, h1.2.2.1, h1.2.2.2⟩

/-- Envelope reporting an API-level error with a server-supplied message. -/
def errEnvelope : Json :=
  Json.obj [("meta", Json.obj
    [("rc", Json.str "error"), ("msg", Json.str "api.err.LoginRequired")])]

/-- Transport oracle answering 200 with the error envelope. -/
def errWorld : HttpRequest → Transport :=
  fun _ => Transport.response 200 errEnvelope

/-- Transport oracle answering 401 on every request. -/
def world401 : HttpRequest → Transport :=
  fun _ => Transport.response 401 Json.null

/-- Sample client whose scope was never entered (self._client is None). -/
def cFresh : UniFiClient :=
  { cAuth with hasClient := false, logged_in := false }

/-- C1: an envelope with meta.rc = "error" makes the request operation raise
the client error UniFiError carrying meta.msg when present and the generic
fallback message when absent, and never return the payload to the caller,
even though the transport status was 2xx. -/
theorem c1_error_envelope_raises (c : UniFiClient)
    (world : HttpRequest → Transport) (method endpoint : String)
    (json : Option Json) (status : Nat) (rbody : Json)
    (hc : c.hasClient = true)
    (hw : world (reqOf c method endpoint json) = Transport.response status rbody)
    (h2xx : httpSuccess status = true)
    (hrc : Json.get (Json.getD rbody "meta" (Json.obj [])) "rc" =
      some (Json.str "error")) :
    (_request c world method endpoint json).1 =
      Except.error (PyError.uniFiError (ErrMsg.json
        (Json.getD (Json.getD rbody "meta" (Json.obj [])) "msg"
          (Json.str "Unknown API error")))) ∧
    PyError.isUniFiError (PyError.uniFiError (ErrMsg.json
      (Json.getD (Json.getD rbody "meta" (Json.obj [])) "msg"
        (Json.str "Unknown API error")))) = true ∧
    (∀ v, Json.get (Json.getD rbody "meta" (Json.obj [])) "msg" = some v →
      (_request c world method endpoint json).1 =
        Except.error (PyError.uniFiError (ErrMsg.json v))) ∧
    (Json.get (Json.getD rbody "meta" (Json.obj [])) "msg" = none →
      (_request c world method endpoint json).1 =
        Except.error (PyError.uniFiError (ErrMsg.json
          (Json.str "Unknown API error")))) ∧
    (∀ payload, (_request c world method endpoint json).1 ≠ Except.ok payload) := by
  have hmain : (_request c world method endpoint json).1 =
      Except.error (PyError.uniFiError (ErrMsg.json
        (Json.getD (Json.getD rbody "meta" (Json.obj [])) "msg"
          (Json.str "Unknown API error")))) := by
    simp [_request, hc, hw, h2xx, hrc]
  refine ⟨hmain, rfl, ?_, ?_, ?_⟩
  · intro v hv
    rw [hmain]
    simp only [Json.getD] at hv ⊢
    simp [hv]
  · intro hv
    rw [hmain]
    simp only [Json.getD] at hv ⊢
    simp [hv]
  · intro payload
    rw [hmain]
    simp

/-- Witness for C1: message present and absent, at concrete envelopes. -/
theorem c1_error_envelope_raises_witness :
    (_request cAuth errWorld "GET" "/api/s/{site}/stat/device" none).1 =
      Except.error (PyError.uniFiError (ErrMsg.json
        (Json.str "api.err.LoginRequired"))) := by
  have h := c1_error_envelope_raises cAuth errWorld "GET"
    "/api/s/{site}/stat/device" none 200 errEnvelope rfl rfl (by decide) rfl
  exact h.2.2.1 (Json.str "api.err.LoginRequired") rfl

/-- C4: a 401 login response raises UniFiAuthenticationError, any other
non-2xx login response raises the plain UniFiError, a connection failure
raises UniFiConnectionError; the authentication error is a distinct kind
from the plain error and all three are subtypes of the base client error. -/
theorem c4_login_error_taxonomy (c : UniFiClient)
    (world : HttpRequest → Transport) (status : Nat) (rbody : Json)
    (hc : c.hasClient = true) :
    (world (loginReq c) = Transport.response 401 rbody →
      (login c world).1 =
        Except.error (PyError.uniFiAuthenticationError "Invalid credentials")) ∧
    (world (loginReq c) = Transport.response status rbody →
      httpSuccess status = false → status ≠ 401 →
      (login c world).1 =
        Except.error (PyError.uniFiError (ErrMsg.loginFailed status))) ∧
    (world (loginReq c) = Transport.connectError →
      (login c world).1 =
        Except.error (PyError.uniFiConnectionError
          ("Failed to connect to " ++ c.host))) ∧
    PyError.isAuthError (PyError.uniFiAuthenticationError "Invalid credentials") = true ∧
    (∀ m, PyError.isAuthError (PyError.uniFiError m) = false) ∧
    PyError.isUniFiError (PyError.uniFiAuthenticationError "Invalid credentials") = true ∧
    (∀ s, PyError.isUniFiError (PyError.uniFiConnectionError s) = true) ∧
    (∀ m, PyError.isUniFiError (PyError.uniFiError m) = true) := by
  refine ⟨?_, ?_, ?_, rfl, fun m => rfl, rfl, fun s => rfl, fun m => rfl⟩
  · intro hw
    simp [login, hc, hw, httpSuccess]
  · intro hw hns h4
    simp [login, hc, hw, hns, h4]
  · intro hw
    simp [login, hc, hw]

/-- Witness for C4 at a 401 response and at a connection failure. -/
theorem c4_login_error_taxonomy_witness :
    (login cAuth world401).1 =
      Except.error (PyError.uniFiAuthenticationError "Invalid credentials") ∧
    PyError.isAuthError (PyError.uniFiAuthenticationError "Invalid credentials") = true ∧
    (login cAuth connFailWorld).1 =
      Except.error (PyError.uniFiConnectionError
        "Failed to connect to https://unifi.local") := by
  have h1 := c4_login_error_taxonomy cAuth world401 401 Json.null rfl
  have h2 := c4_login_error_taxonomy cAuth connFailWorld 401 Json.null rfl
  exact ⟨h1.1 rfl, h1.2.2.2.1, h2.2.2.1 rfl⟩

/-- C8: an envelope with meta.rc = "ok" and no data key makes the request
operation return the empty list, not an error. -/
theorem c8_ok_envelope_empty_data (c : UniFiClient)
    (world : HttpRequest → Transport) (method endpoint : String)
    (json : Option Json) (status : Nat) (rbody : Json)
    (hc : c.hasClient = true)
    (hw : world (reqOf c method endpoint json) = Transport.response status rbody)
    (h2xx : httpSuccess status = true)
    (hrc : Json.get (Json.getD rbody "meta" (Json.obj [])) "rc" =
      some (Json.str "ok"))
    (hnd : Json.get rbody "data" = none) :
    (_request c world method endpoint json).1 = Except.ok (Json.arr []) := by
  have hrc2 : ((rbody.get "meta").getD (Json.obj [])).get "rc" =
      some (Json.str "ok") := by
    simpa [Json.getD] using hrc
  simp [_request, hc, hw, h2xx, Json.getD, hnd, hrc2]

/-- Witness for C8 at a concrete ok envelope without data. -/
theorem c8_ok_envelope_empty_data_witness :
    (_request cAuth okWorld "GET" "/api/s/{site}/stat/device" none).1 =
      Except.ok (Json.arr []) :=
  c8_ok_envelope_empty_data cAuth okWorld "GET" "/api/s/{site}/stat/device"
    none 200 okEnvelope rfl rfl (by decide) rfl rfl

/-- C9: on a client whose scope was never entered, login and the typed
operations raise RuntimeError with message "Client not initialized", which
is not a subtype of the base client error, and nothing is sent. -/
theorem c9_uninitialized_runtime_error (c : UniFiClient)
    (world : HttpRequest → Transport) (method endpoint : String)
    (json : Option Json) (mac : String) (hc : c.hasClient = false) :
    (login c world).1 =
      Except.error (PyError.runtimeError "Client not initialized") ∧
    (_request c world method endpoint json).1 =
      Except.error (PyError.runtimeError "Client not initialized") ∧
    (get_devices c world).1 =
      Except.error (PyError.runtimeError "Client not initialized") ∧
    (get_clients c world).1 =
      Except.error (PyError.runtimeError "Client not initialized") ∧
    (restart_device c world mac).1 =
      Except.error (PyError.runtimeError "Client not initialized") ∧
    (block_client c world mac).1 =
      Except.error (PyError.runtimeError "Client not initialized") ∧
    (unblock_client c world mac).1 =
      Except.error (PyError.runtimeError "Client not initialized") ∧
    (disconnect_client c world mac).1 =
      Except.error (PyError.runtimeError "Client not initialized") ∧
    PyError.isUniFiError (PyError.runtimeError "Client not initialized") = false ∧
    (login c world).2 = [] ∧
    (_request c world method endpoint json).2 = [] := by
  refine ⟨?_, ?_, ?_, ?_, ?_, ?_, ?_, ?_, rfl, ?_, ?_⟩ <;>
    simp [login, _request, get_devices, get_clients, restart_device,
      block_client, unblock_client, disconnect_client, hc, Except.map]

/-- Witness for C9 at the sample unopened client. -/
theorem c9_uninitialized_runtime_error_witness :
    (login cFresh okWorld).1 =
      Except.error (PyError.runtimeError "Client not initialized") ∧
    (get_devices cFresh okWorld).1 =
      Except.error (PyError.runtimeError "Client not initialized") ∧
    PyError.isUniFiError (PyError.runtimeError "Client not initialized") = false := by
  have h := c9_uninitialized_runtime_error cFresh okWorld "GET"
    "/api/s/{site}/stat/device" none "aa" rfl
  exact ⟨h.1, h.2.2.1, h.2.2.2.2.2.2.2.2.1⟩

/-- C10: during a typed operation only non-2xx statuses become the base
client error; a connection failure propagates as the httpx exception, never
converted to UniFiConnectionError — that conversion exists only in login. -/
theorem c10_connect_error_propagates (c : UniFiClient)
    (world : HttpRequest → Transport) (method endpoint : String)
    (json : Option Json) (hc : c.hasClient = true) :
    (world (reqOf c method endpoint json) = Transport.connectError →
      (_request c world method endpoint json).1 =
        Except.error (PyError.httpxRaised HttpxErr.connectError)) ∧
    PyError.isUniFiError (PyError.httpxRaised HttpxErr.connectError) = false ∧
    PyError.isConnError (PyError.httpxRaised HttpxErr.connectError) = false ∧
    (∀ status rbody,
      world (reqOf c method endpoint json) = Transport.response status rbody →
      httpSuccess status = false →
      (_request c world method endpoint json).1 =
        Except.error (PyError.uniFiError (ErrMsg.requestFailed status)) ∧
      PyError.isUniFiError (PyError.uniFiError (ErrMsg.requestFailed status)) = true) ∧
    (world (loginReq c) = Transport.connectError →
      (login c world).1 =
        Except.error (PyError.uniFiConnectionError
          ("Failed to connect to " ++ c.host)) ∧
      PyError.isConnError (PyError.uniFiConnectionError
        ("Failed to connect to " ++ c.host)) = true) := by
  refine ⟨?_, rfl, rfl, ?_, ?_⟩
  · intro hw
    simp [_request, hc, hw]
  · intro status rbody hw hns
    constructor
    · simp [_request, hc, hw, hns]
    · rfl
  · intro hw
    constructor
    · simp [login, hc, hw]
    · rfl

/-- Witness for C10 at the sample client and a failing transport. -/
theorem c10_connect_error_propagates_witness :
    (_request cAuth connFailWorld "GET" "/api/s/{site}/stat/device" none).1 =
      Except.error (PyError.httpxRaised HttpxErr.connectError) ∧
    PyError.isUniFiError (PyError.httpxRaised HttpxErr.connectError) = false ∧
    (login cAuth connFailWorld).1 =
      Except.error (PyError.uniFiConnectionError
        "Failed to connect to https://unifi.local") := by
  have h := c10_connect_error_propagates cAuth connFailWorld "GET"
    "/api/s/{site}/stat/device" none rfl
  exact ⟨h.1 rfl, h.2.1, (h.2.2.2.2 rfl).1⟩

/-- Counterexample to C2 as stated: on an authenticated session whose logout
POST raises (connection failure at scope exit), the failure is swallowed and
the connection closed, but the authenticated flag is NOT cleared — it is
still set after scope exit, where the claim says it is cleared even when the
logout call itself fails (the source sets the flag only after the awaited
POST, inside the try block). -/
theorem c2_flag_not_cleared_on_logout_failure :
    cAuth.hasClient = true ∧ cAuth.logged_in = true ∧
    (__aexit__ cAuth connFailWorld).1.logged_in = true ∧
    (__aexit__ cAuth connFailWorld).1.connClosed = true :=
  ⟨rfl, rfl, rfl, rfl⟩

/-- C2 (amended): for every session in the Authenticated state, scope exit
issues one best-effort logout whose failure is swallowed; the authenticated
flag is cleared when the logout POST returns and remains set when it raises;
the underlying connection is closed in both cases; deauthenticate on an
unauthenticated session and scope exit on an unopened session are no-ops. -/
theorem c2_scope_exit_best_effort_logout (c : UniFiClient)
    (world : HttpRequest → Transport)
    (hc : c.hasClient = true) (hl : c.logged_in = true) :
    (__aexit__ c world).2 =
      [{ method := "POST", url := "/api/logout", body := none }] ∧
    (__aexit__ c world).1.connClosed = true ∧
    (∀ status rbody,
      world { method := "POST", url := "/api/logout", body := none } =
        Transport.response status rbody →
      (__aexit__ c world).1.logged_in = false) ∧
    (∀ e, logoutTry c
        (world { method := "POST", url := "/api/logout", body := none }) =
        Except.error e →
      (__aexit__ c world).1 = { c with connClosed := true } ∧
      (__aexit__ c world).1.logged_in = true) ∧
    (∀ c2 : UniFiClient, c2.logged_in = false → logout c2 world = (c2, [])) ∧
    (∀ c2 : UniFiClient, c2.hasClient = false → __aexit__ c2 world = (c2, [])) := by
  refine ⟨?_, ?_, ?_, ?_, ?_, ?_⟩
  · simp only [__aexit__, logout, hc, hl]
    simp only [Bool.true_eq_false, or_self, if_false]
    split <;> rfl
  · simp [__aexit__, hc]
  · intro status rbody hw
    simp [__aexit__, logout, hc, hl, hw, logoutTry]
  · intro e he
    constructor
    · simp [__aexit__, logout, hc, hl, he]
    · simp [__aexit__, logout, hc, hl, he]
  · intro c2 h2
    simp [logout, h2]
  · intro c2 h2
    simp [__aexit__, h2]

/-- Witness for C2 (amended) at the sample session with a logout that
returns 200. -/
theorem c2_scope_exit_best_effort_logout_witness :
    (__aexit__ cAuth okWorld).1.logged_in = false ∧
    (__aexit__ cAuth okWorld).1.connClosed = true ∧
    (__aexit__ cAuth okWorld).2 =
      [{ method := "POST", url := "/api/logout", body := none }] := by
  have h := c2_scope_exit_best_effort_logout cAuth okWorld rfl rfl
  exact ⟨h.2.2.1 200 okEnvelope rfl, h.2.1, h.1⟩

/-- Counterexample to C3 as stated: the explicitly passed empty-string host
does not override the environment variable — the constructor uses Python or,
so the falsy empty string falls back to the environment value. -/
theorem c3_explicit_empty_string_falls_back :
    (UniFiClient.init [("UNIFI_HOST", "https://env.unifi.local")]
      (some "") none none none none none).host = "https://env.unifi.local" ∧
    (UniFiClient.init [("UNIFI_HOST", "https://env.unifi.local")]
      (some "") none none none none none).host ≠ "" :=
  ⟨rfl, by decide⟩

/-- C3 (amended): explicitly passed non-empty string arguments and
explicitly passed booleans (including false) override the environment
variables; an explicit empty string behaves like an omitted argument;
omitted arguments fall back to their environment variables (boolean fields
read true exactly when the lower-cased value is "true"); with neither, the
documented defaults apply: site default, verify_ssl true, is_unifi_os false
(and empty strings for host, username, password). -/
theorem c3_config_resolution (env : List (String × String))
    (h u p s : String) (vs osFlag : Bool)
    (hh : h ≠ "") (hu : u ≠ "") (hp : p ≠ "") (hs : s ≠ "") :
    UniFiClient.init env (some h) (some u) (some p) (some s)
        (some vs) (some osFlag) =
      { host := h, username := u, password := p, site := s, verify_ssl := vs
        is_unifi_os := osFlag, hasClient := false, connClosed := false
        logged_in := false } ∧
    (∀ v, envGet env "UNIFI_HOST" = some v →
      (UniFiClient.init env none none none none none none).host = v) ∧
    (∀ v, envGet env "UNIFI_USERNAME" = some v →
      (UniFiClient.init env none none none none none none).username = v) ∧
    (∀ v, envGet env "UNIFI_PASSWORD" = some v →
      (UniFiClient.init env none none none none none none).password = v) ∧
    (∀ v, envGet env "UNIFI_SITE" = some v →
      (UniFiClient.init env none none none none none none).site = v) ∧
    (∀ v, envGet env "UNIFI_VERIFY_SSL" = some v →
      (UniFiClient.init env none none none none none none).verify_ssl =
        (pyLower v == "true")) ∧
    (∀ v, envGet env "UNIFI_IS_UNIFI_OS" = some v →
      (UniFiClient.init env none none none none none none).is_unifi_os =
        (pyLower v == "true")) ∧
    (envGet env "UNIFI_SITE" = none →
      (UniFiClient.init env none none none none none none).site = "default") ∧
    (envGet env "UNIFI_VERIFY_SSL" = none →
      (UniFiClient.init env none none none none none none).verify_ssl = true) ∧
    (envGet env "UNIFI_IS_UNIFI_OS" = none →
      (UniFiClient.init env none none none none none none).is_unifi_os = false) ∧
    (envGet env "UNIFI_HOST" = none →
      (UniFiClient.init env none none none none none none).host = "") := by
  refine ⟨?_, ?_, ?_, ?_, ?_, ?_, ?_, ?_, ?_, ?_, ?_⟩
  · simp [UniFiClient.init, pyOrStr, hh, hu, hp, hs]
  · intro v hv
    simp [UniFiClient.init, pyOrStr, envGetD, hv]
  · intro v hv
    simp [UniFiClient.init, pyOrStr, envGetD, hv]
  · intro v hv
    simp [UniFiClient.init, pyOrStr, envGetD, hv]
  · intro v hv
    simp [UniFiClient.init, pyOrStr, envGetD, hv]
  · intro v hv
    simp [UniFiClient.init, envGetD, hv]
  · intro v hv
    simp [UniFiClient.init, envGetD, hv]
  · intro hv
    simp [UniFiClient.init, pyOrStr, envGetD, hv]
  · intro hv
    simp [UniFiClient.init, envGetD, hv]
    decide
  · intro hv
    simp [UniFiClient.init, envGetD, hv]
    decide
  · intro hv
    simp [UniFiClient.init, pyOrStr, envGetD, hv]

/-- Witness for C3 (amended) at concrete environments and arguments. -/
theorem c3_config_resolution_witness :
    UniFiClient.init [] (some "https://unifi.local") (some "admin")
        (some "pass") (some "mysite") (some false) (some true) =
      { host := "https://unifi.local", username := "admin", password := "pass"
        site := "mysite", verify_ssl := false, is_unifi_os := true
        hasClient := false, connClosed := false, logged_in := false } ∧
    (UniFiClient.init [("UNIFI_SITE", "envsite")]
      none none none none none none).site = "envsite" ∧
    (UniFiClient.init [] none none none none none none).site = "default" ∧
    (UniFiClient.init [] none none none none none none).verify_ssl = true ∧
    (UniFiClient.init [] none none none none none none).is_unifi_os = false := by
  have h1 := c3_config_resolution [] "https://unifi.local" "admin" "pass"
    "mysite" false true (by decide) (by decide) (by decide) (by decide)
  have h2 := c3_config_resolution [("UNIFI_SITE", "envsite")] "x" "x" "x" "x"
    false true (by decide) (by decide) (by decide) (by decide)
  exact ⟨h1.1, h2.2.2.2.2.1 "envsite" rfl, h1.2.2.2.2.2.2.2.1 rfl,
    h1.2.2.2.2.2.2.2.2.1 rfl, h1.2.2.2.2.2.2.2.2.2.1 rfl⟩
